import Mathlib

/-!
Shallow embedding of the ASME VIII Div.1 nozzle-compliance calculation engine
(`src/nozzle_calculator.py`): the constants, the thickness-formula library,
the UG-16 minimum-thickness resolver, the UG-45 nominal-size matcher, the
stress and load analyzers, and the orchestrator `calculate_asme_compliance`.

Python floats are idealized as exact numbers: rationals (`ℚ`) wherever the
source computes with `+ - * /` and comparisons only, reals (`ℝ`) in the load
analyzer, whose formulas use `math.pi` and `math.sqrt`.  A Python exception is
modelled as the `error` case of `Except PyErr`; `str(e)` is `pyStr`.  Two
faithfulness points of the source are kept deliberately:

* the local `results` dict of `perform_stress_analysis` and
  `perform_load_analysis` has no `'errors'` key, so their `except` handlers
  themselves raise `KeyError('errors')`, which escapes to the orchestrator's
  outer handler; the functions therefore never return partial sections;
* in the UG-45 block the loop variable `nps` is always bound after the
  `for`/`else` (the table is non-empty), so `'nps' in locals()` is always
  true and the `"NPS 12+"` fallback label is dead code: a target larger than
  every table entry is labelled with the last entry's own label.
-/

/-- A Python exception as observed by a handler: `ZeroDivisionError` from
float division by zero, `ValueError(msg)`, or `KeyError(name)`. -/
inductive PyErr where
  | zeroDivision : PyErr
  | valueError : String → PyErr
  | keyError : String → PyErr
deriving DecidableEq

/-- Python's `str(e)` for the exceptions above: `str(ZeroDivisionError())` of a
float division is `"float division by zero"`, `str(ValueError(m))` is `m`, and
`str(KeyError(k))` is the key wrapped in single quotes. -/
def pyStr : PyErr → String
  | .zeroDivision => "float division by zero"
  | .valueError m => m
  | .keyError n => "'" ++ n ++ "'"

/-- `ALLOWABLE_STRESS_FACTOR = 1.5` from the source's constants block. -/
def ALLOWABLE_STRESS_FACTOR : ℚ := 1.5

/-- `STRESS_INTENSITY_FACTOR = 3.0` from the source's constants block. -/
def STRESS_INTENSITY_FACTOR : ℚ := 3.0

/-- The `UG16_MINIMUMS` dict together with the `.get(equipment_type, 0.0)`
access: unknown categories default to `0.0`. -/
def UG16_MINIMUMS (equipment_type : String) : ℚ :=
  match equipment_type with
  | "Pressure Vessel (Standard)" => 1.5
  | "Unfired Steam Boiler" => 6.35
  | "Non-Code Construction" => 0
  | _ => 0

/-- `get_ug16_min_thickness` from the source: resolved minimum thickness and
the justification string. -/
def get_ug16_min_thickness (equipment_type service_type : String)
    (custom_min_enabled : Bool) (custom_min : ℚ) : ℚ × String :=
  let equipment_min := UG16_MINIMUMS equipment_type
  let service_min : ℚ :=
    if service_type ∈ (["Water", "Compressed Air", "Steam"] : List String) then 2.5 else 0
  let custom : ℚ := if custom_min_enabled then custom_min else 0
  let min_thickness := max (max equipment_min service_min) custom
  let ref_parts : List String :=
    (if 0 < equipment_min then ["UG-16 for " ++ equipment_type] else []) ++
    (if 0 < service_min then ["UG-16(b) for " ++ service_type] else []) ++
    (if custom_min_enabled ∧ 0 < custom then ["Custom specified minimum"] else [])
  let ref := if ref_parts = [] then "No UG-16 requirement" else String.intercalate " + " ref_parts
  (min_thickness, ref)

/-- The minimum-thickness resolver as the spec's sentences describe it
(§4.2 of the spec, quoted by the claim): equipment minimum by category
(1.5 / 6.35 / 0.0), service minimum (2.5 for water, compressed air or steam,
else 0.0), override value only when its flag is set; resolved minimum is the
maximum of the three; the justification joins, in the fixed order and with
separator `" + "`, exactly the clauses whose contributing value is strictly
positive, with a fixed "no requirement" sentinel when none contributed. -/
def ug16_min_spec (equipment_type service_type : String)
    (custom_min_enabled : Bool) (custom_min : ℚ) : ℚ × String :=
  let e : ℚ :=
    if equipment_type = "Pressure Vessel (Standard)" then 1.5
    else if equipment_type = "Unfired Steam Boiler" then 6.35
    else 0
  let s : ℚ :=
    if service_type = "Water" ∨ service_type = "Compressed Air" ∨ service_type = "Steam"
    then 2.5 else 0
  let c : ℚ := if custom_min_enabled then custom_min else 0
  let clauses : List String :=
    (if 0 < e then ["UG-16 for " ++ equipment_type] else []) ++
    (if 0 < s then ["UG-16(b) for " ++ service_type] else []) ++
    (if 0 < c then ["Custom specified minimum"] else [])
  (max e (max s c),
   if clauses = [] then "No UG-16 requirement" else String.intercalate " + " clauses)

/-- `calculate_shell_thickness` (UG-27): `P·D / (2·S·E − 1.2·P)`; Python
raises `ZeroDivisionError` exactly when the denominator is `0`. -/
def calculate_shell_thickness (P D S E : ℚ) : Except PyErr ℚ :=
  if 2 * S * E - 1.2 * P = 0 then .error .zeroDivision
  else .ok ((P * D) / (2 * S * E - 1.2 * P))

/-- `calculate_head_thickness` (UG-32): three head-type branches, a
`ValueError("Invalid head type")` otherwise; each branch raises
`ZeroDivisionError` exactly when its denominator is `0`. -/
def calculate_head_thickness (P D S E : ℚ) (head_type : String) : Except PyErr ℚ :=
  if head_type = "Hemispherical" then
    if 4 * S * E - 0.4 * P = 0 then .error .zeroDivision
    else .ok ((P * D) / (4 * S * E - 0.4 * P))
  else if head_type = "Ellipsoidal" then
    if 2 * S * E - 0.2 * P = 0 then .error .zeroDivision
    else .ok ((P * D) / (2 * S * E - 0.2 * P))
  else if head_type = "Torispherical" then
    if S * E - 0.1 * P = 0 then .error .zeroDivision
    else .ok ((0.885 * P * D) / (S * E - 0.1 * P))
  else .error (.valueError "Invalid head type")

/-- `calculate_nozzle_thickness` (UG-27): same form as the shell formula,
parameterized by the nozzle diameter. -/
def calculate_nozzle_thickness (P d S E : ℚ) : Except PyErr ℚ :=
  if 2 * S * E - 1.2 * P = 0 then .error .zeroDivision
  else .ok ((P * d) / (2 * S * E - 1.2 * P))

/-- One row of `UG45_TABLE`: `(nps label, nominal size, outer diameter,
standard wall thickness)`. -/
structure Ug45Entry where
  nps : String
  dn : ℕ
  od : ℚ
  wall : ℚ
deriving DecidableEq

/-- The `UG45_TABLE` constant, in source order (which is already ascending in
outer diameter, so the source's `sorted(UG45_TABLE, key=lambda x: x[2])` is the
identity on it — `UG45_TABLE_sorted` below). -/
def UG45_TABLE : List Ug45Entry :=
  [⟨"1/8", 6, 10.29, 1.51⟩, ⟨"1/4", 8, 13.72, 1.96⟩,
   ⟨"3/8", 10, 17.12, 2.02⟩, ⟨"1/2", 15, 21.34, 2.42⟩,
   ⟨"3/4", 20, 26.67, 2.51⟩, ⟨"1", 25, 33.40, 2.96⟩,
   ⟨"1¬º", 32, 42.16, 3.12⟩, ⟨"1¬Ω", 40, 48.26, 3.22⟩,
   ⟨"2", 50, 60.33, 3.42⟩, ⟨"2¬Ω", 65, 73.03, 4.52⟩,
   ⟨"3", 80, 88.90, 4.80⟩, ⟨"3¬Ω", 90, 101.60, 5.02⟩,
   ⟨"4", 100, 114.30, 5.27⟩, ⟨"5", 125, 141.30, 5.73⟩,
   ⟨"6", 150, 168.28, 6.22⟩, ⟨"8", 200, 219.08, 7.16⟩,
   ⟨"10", 250, 273.05, 8.11⟩, ⟨"12", 300, 323.85, 8.34⟩]

/-- The UG-45 block's table scan (source lines 203–209): first entry whose
outer diameter is at least the target gives `(wall + CA, "NPS " ++ label)`;
when none matches, the `for`/`else` takes the last entry's wall thickness, and
the label — built from the still-bound loop variable `nps`, since
`'nps' in locals()` is always true — is the last entry's own label. -/
def ug45Lookup (nozzle_od CA : ℚ) : ℚ × String :=
  match UG45_TABLE.find? (fun e => decide (nozzle_od ≤ e.od)) with
  | some e => (e.wall + CA, "NPS " ++ e.nps)
  | none =>
      ((UG45_TABLE.getLastD ⟨"", 0, 0, 0⟩).wall + CA,
       "NPS " ++ (UG45_TABLE.getLastD ⟨"", 0, 0, 0⟩).nps)

/-- The complete input record: the 25 keys `calculate_asme_compliance`
requires, with Python floats idealized as rationals. -/
structure Inputs where
  P_int : ℚ
  D : ℚ
  d : ℚ
  t : ℚ
  tn : ℚ
  th_head : ℚ
  CA : ℚ
  nozzle_od : ℚ
  E_shell : ℚ
  E_head : ℚ
  E_nozzle : ℚ
  S_shell : ℚ
  S_head : ℚ
  S_nozzle : ℚ
  equipment_type : String
  head_type : String
  service_type : String
  Fx : ℚ
  Fy : ℚ
  Fz : ℚ
  Mx : ℚ
  My : ℚ
  Mz : ℚ
  custom_min_enabled : Bool
  custom_min : ℚ

/-- A required-vs-actual thickness pair (`results['calculations'][...]`). -/
structure CalcPair where
  required : ℚ
  actual : ℚ
deriving DecidableEq

/-- One component's UG-16 entry: required, actual, pass flag. -/
structure Ug16Entry where
  required : ℚ
  actual : ℚ
  status : Bool
deriving DecidableEq

/-- The `results['ug16']` section. -/
structure Ug16Section where
  shell : Ug16Entry
  head : Ug16Entry
  nozzle : Ug16Entry
  reference : String
deriving DecidableEq

/-- The `results['ug45']` section. -/
structure Ug45Section where
  required : ℚ
  actual : ℚ
  status : Bool
  matched_size : String
deriving DecidableEq

/-- The `results['stresses']` section. -/
structure StressSection where
  shell : ℚ
  head : ℚ
  nozzle : ℚ
deriving DecidableEq

/-- The `results['loads']` section (real-valued: `math.pi`, `math.sqrt`). -/
structure LoadSection where
  axial : ℝ
  bending : ℝ
  shear : ℝ
  equivalent : ℝ
  allowable : ℝ
  status : Bool

/-- The compliance report.  A section that the Python code leaves as its
initial empty dict is `none`; `compliant` is `none` when the `'compliant'` key
was never assigned. -/
structure Report where
  errors : List String
  calcShell : Option CalcPair
  calcHead : Option CalcPair
  calcNozzle : Option CalcPair
  ug16 : Option Ug16Section
  ug45 : Option Ug45Section
  stresses : Option StressSection
  loads : Option LoadSection
  compliant : Option Bool

/-- The report as initialized at the top of `calculate_asme_compliance`. -/
def emptyReport : Report :=
  { errors := [], calcShell := none, calcHead := none, calcNozzle := none,
    ug16 := none, ug45 := none, stresses := none, loads := none, compliant := none }

/-- `perform_stress_analysis`.  Each stress statement raises
`ZeroDivisionError` exactly when its divisor is `0`; the `except` handler then
evaluates `results['errors']` on a local dict that has only a `'stresses'`
key, so the handler raises `KeyError('errors')`, which is what escapes. -/
def perform_stress_analysis (i : Inputs) : Except PyErr StressSection :=
  if (i.t - i.CA) * i.E_shell = 0 then .error (.keyError "errors")
  else if 4 * (i.th_head - i.CA) * i.E_head = 0 then .error (.keyError "errors")
  else if (i.tn - i.CA) * i.E_nozzle = 0 then .error (.keyError "errors")
  else .ok
    { shell := i.P_int * (i.D / 2) / ((i.t - i.CA) * i.E_shell),
      head := i.P_int * i.D / (4 * (i.th_head - i.CA) * i.E_head),
      nozzle := i.P_int * (i.d / 2) / ((i.tn - i.CA) * i.E_nozzle) }

open scoped Classical in
/-- `perform_load_analysis`.  The divisions raise `ZeroDivisionError` exactly
when their divisor is `0` (`math.sqrt` never sees a negative argument here),
and the `except` handler has the same missing-`'errors'`-key slip as the
stress analyzer, so `KeyError('errors')` is what escapes.  `Mz` is read from
the input record but used nowhere. -/
noncomputable def perform_load_analysis (i : Inputs) : Except PyErr LoadSection :=
  let dn : ℝ := (i.d : ℝ)
  let tn : ℝ := (i.tn : ℝ) - (i.CA : ℝ)
  if Real.pi * dn * tn = 0 then .error (.keyError "errors")
  else if Real.pi * dn ^ 2 * tn = 0 then .error (.keyError "errors")
  else
    let axial_stress := (i.Fz : ℝ) / (Real.pi * dn * tn)
    let bending_stress :=
      4 * Real.sqrt ((i.Mx : ℝ) ^ 2 + (i.My : ℝ) ^ 2) / (Real.pi * dn ^ 2 * tn)
    let shear_stress := Real.sqrt ((i.Fx : ℝ) ^ 2 + (i.Fy : ℝ) ^ 2) / (Real.pi * dn * tn)
    let equivalent_stress :=
      Real.sqrt ((axial_stress + bending_stress) ^ 2 + 3 * shear_stress ^ 2)
    .ok
      { axial := axial_stress, bending := bending_stress, shear := shear_stress,
        equivalent := equivalent_stress,
        allowable := (i.S_nozzle : ℝ) * (ALLOWABLE_STRESS_FACTOR : ℚ),
        status := decide (equivalent_stress ≤ (i.S_nozzle : ℝ) * (ALLOWABLE_STRESS_FACTOR : ℚ)) }

/-- The UG-16 block of the orchestrator (source lines 176–200): one resolved
minimum and justification, applied to all three components. -/
def ug16_block (i : Inputs) : Ug16Section :=
  let mt := get_ug16_min_thickness i.equipment_type i.service_type
    i.custom_min_enabled i.custom_min
  { shell := ⟨mt.1, i.t - i.CA, decide (i.t - i.CA ≥ mt.1)⟩,
    head := ⟨mt.1, i.th_head - i.CA, decide (i.th_head - i.CA ≥ mt.1)⟩,
    nozzle := ⟨mt.1, i.tn - i.CA, decide (i.tn - i.CA ≥ mt.1)⟩,
    reference := mt.2 }

/-- The UG-45 block of the orchestrator (source lines 203–216), given the
formula-library nozzle required thickness. -/
def ug45_block (i : Inputs) (nozzle_required : ℚ) : Ug45Section :=
  let tbl := ug45Lookup i.nozzle_od i.CA
  { required := max nozzle_required tbl.1,
    actual := i.tn,
    status := decide (i.tn ≥ max nozzle_required tbl.1),
    matched_size := tbl.2 }

/-- The body of `calculate_asme_compliance` after input validation, on a
complete input.  Each `match` on an `Except` mirrors a statement of the `try`
block: an exception jumps to the outer handler, which appends
`"Calculation error: " ++ str(e)` and returns the report as built so far;
sections populated before the raise stay populated.  When every step
succeeds, `compliant` is the `all([...])` of the eight flags. -/
noncomputable def asmeComplianceCore (i : Inputs) : Report :=
  match calculate_shell_thickness i.P_int i.D i.S_shell i.E_shell with
  | .error e => { emptyReport with errors := ["Calculation error: " ++ pyStr e] }
  | .ok shell_req =>
    match calculate_head_thickness i.P_int i.D i.S_head i.E_head i.head_type with
    | .error e =>
        { emptyReport with
          calcShell := some ⟨shell_req, i.t - i.CA⟩,
          errors := ["Calculation error: " ++ pyStr e] }
    | .ok head_req =>
      match calculate_nozzle_thickness i.P_int i.d i.S_nozzle i.E_nozzle with
      | .error e =>
          { emptyReport with
            calcShell := some ⟨shell_req, i.t - i.CA⟩,
            calcHead := some ⟨head_req, i.th_head - i.CA⟩,
            errors := ["Calculation error: " ++ pyStr e] }
      | .ok nozzle_req =>
        match perform_stress_analysis i with
        | .error e =>
            { emptyReport with
              calcShell := some ⟨shell_req, i.t - i.CA⟩,
              calcHead := some ⟨head_req, i.th_head - i.CA⟩,
              calcNozzle := some ⟨nozzle_req, i.tn - i.CA⟩,
              ug16 := some (ug16_block i),
              ug45 := some (ug45_block i nozzle_req),
              errors := ["Calculation error: " ++ pyStr e] }
        | .ok st =>
          match perform_load_analysis i with
          | .error e =>
              { emptyReport with
                calcShell := some ⟨shell_req, i.t - i.CA⟩,
                calcHead := some ⟨head_req, i.th_head - i.CA⟩,
                calcNozzle := some ⟨nozzle_req, i.tn - i.CA⟩,
                ug16 := some (ug16_block i),
                ug45 := some (ug45_block i nozzle_req),
                stresses := some st,
                errors := ["Calculation error: " ++ pyStr e] }
          | .ok ld =>
              { emptyReport with
                calcShell := some ⟨shell_req, i.t - i.CA⟩,
                calcHead := some ⟨head_req, i.th_head - i.CA⟩,
                calcNozzle := some ⟨nozzle_req, i.tn - i.CA⟩,
                ug16 := some (ug16_block i),
                ug45 := some (ug45_block i nozzle_req),
                stresses := some st,
                loads := some ld,
                compliant := some
                  ((ug16_block i).shell.status && (ug16_block i).head.status &&
                   (ug16_block i).nozzle.status && (ug45_block i nozzle_req).status &&
                   decide (st.shell ≤ i.S_shell) && decide (st.head ≤ i.S_head) &&
                   decide (st.nozzle ≤ i.S_nozzle) && ld.status) }

/-- The raw input dict: each required key either present (with its value) or
absent. -/
structure RawInputs where
  P_int : Option ℚ
  D : Option ℚ
  d : Option ℚ
  t : Option ℚ
  tn : Option ℚ
  th_head : Option ℚ
  CA : Option ℚ
  nozzle_od : Option ℚ
  E_shell : Option ℚ
  E_head : Option ℚ
  E_nozzle : Option ℚ
  S_shell : Option ℚ
  S_head : Option ℚ
  S_nozzle : Option ℚ
  equipment_type : Option String
  head_type : Option String
  service_type : Option String
  Fx : Option ℚ
  Fy : Option ℚ
  Fz : Option ℚ
  Mx : Option ℚ
  My : Option ℚ
  Mz : Option ℚ
  custom_min_enabled : Option Bool
  custom_min : Option ℚ

/-- The `required_keys` list of the source, in source order. -/
def required_keys : List String :=
  ["P_int", "D", "d", "t", "tn", "th_head", "CA",
   "nozzle_od", "E_shell", "E_head", "E_nozzle",
   "S_shell", "S_head", "S_nozzle", "equipment_type",
   "head_type", "Fx", "Fy", "Fz", "Mx", "My", "Mz",
   "service_type", "custom_min_enabled", "custom_min"]

/-- `key not in inputs` for each required key. -/
def keyAbsent (r : RawInputs) : String → Bool
  | "P_int" => r.P_int.isNone
  | "D" => r.D.isNone
  | "d" => r.d.isNone
  | "t" => r.t.isNone
  | "tn" => r.tn.isNone
  | "th_head" => r.th_head.isNone
  | "CA" => r.CA.isNone
  | "nozzle_od" => r.nozzle_od.isNone
  | "E_shell" => r.E_shell.isNone
  | "E_head" => r.E_head.isNone
  | "E_nozzle" => r.E_nozzle.isNone
  | "S_shell" => r.S_shell.isNone
  | "S_head" => r.S_head.isNone
  | "S_nozzle" => r.S_nozzle.isNone
  | "equipment_type" => r.equipment_type.isNone
  | "head_type" => r.head_type.isNone
  | "service_type" => r.service_type.isNone
  | "Fx" => r.Fx.isNone
  | "Fy" => r.Fy.isNone
  | "Fz" => r.Fz.isNone
  | "Mx" => r.Mx.isNone
  | "My" => r.My.isNone
  | "Mz" => r.Mz.isNone
  | "custom_min_enabled" => r.custom_min_enabled.isNone
  | "custom_min" => r.custom_min.isNone
  | _ => false

/-- `missing = [key for key in required_keys if key not in inputs]`. -/
def missingKeys (r : RawInputs) : List String :=
  required_keys.filter (keyAbsent r)

/-- Extraction of a complete record from the raw dict: `some` exactly when
every required key is present. -/
def toInputs (r : RawInputs) : Option Inputs :=
  match r with
  | ⟨some P_int, some D, some d, some t, some tn, some th_head, some CA,
     some nozzle_od, some E_shell, some E_head, some E_nozzle, some S_shell,
     some S_head, some S_nozzle, some equipment_type, some head_type,
     some service_type, some Fx, some Fy, some Fz, some Mx, some My, some Mz,
     some custom_min_enabled, some custom_min⟩ =>
      some
        { P_int := P_int, D := D, d := d, t := t, tn := tn, th_head := th_head,
          CA := CA, nozzle_od := nozzle_od, E_shell := E_shell, E_head := E_head,
          E_nozzle := E_nozzle, S_shell := S_shell, S_head := S_head,
          S_nozzle := S_nozzle, equipment_type := equipment_type,
          head_type := head_type, service_type := service_type,
          Fx := Fx, Fy := Fy, Fz := Fz, Mx := Mx, My := My, Mz := Mz,
          custom_min_enabled := custom_min_enabled, custom_min := custom_min }
  | _ => none

/-- `calculate_asme_compliance`: validate presence of every required key —
a missing one raises `ValueError("Missing inputs: " + ", ".join(missing))`,
caught by the outer handler before any computation — else run the body on the
complete record. -/
noncomputable def calculate_asme_compliance (r : RawInputs) : Report :=
  match toInputs r with
  | none =>
      { emptyReport with
        errors := ["Calculation error: Missing inputs: " ++
          String.intercalate ", " (missingKeys r)] }
  | some i => asmeComplianceCore i

/-- A complete record seen as a raw dict with every key present. -/
def toRaw (i : Inputs) : RawInputs :=
  { P_int := some i.P_int, D := some i.D, d := some i.d, t := some i.t,
    tn := some i.tn, th_head := some i.th_head, CA := some i.CA,
    nozzle_od := some i.nozzle_od, E_shell := some i.E_shell,
    E_head := some i.E_head, E_nozzle := some i.E_nozzle,
    S_shell := some i.S_shell, S_head := some i.S_head,
    S_nozzle := some i.S_nozzle, equipment_type := some i.equipment_type,
    head_type := some i.head_type, service_type := some i.service_type,
    Fx := some i.Fx, Fy := some i.Fy, Fz := some i.Fz, Mx := some i.Mx,
    My := some i.My, Mz := some i.Mz,
    custom_min_enabled := some i.custom_min_enabled,
    custom_min := some i.custom_min }

/-- Removing one named key from an otherwise complete input dict.  An unknown
name removes nothing. -/
def eraseKey (k : String) (i : Inputs) : RawInputs :=
  match k with
  | "P_int" => { toRaw i with P_int := none }
  | "D" => { toRaw i with D := none }
  | "d" => { toRaw i with d := none }
  | "t" => { toRaw i with t := none }
  | "tn" => { toRaw i with tn := none }
  | "th_head" => { toRaw i with th_head := none }
  | "CA" => { toRaw i with CA := none }
  | "nozzle_od" => { toRaw i with nozzle_od := none }
  | "E_shell" => { toRaw i with E_shell := none }
  | "E_head" => { toRaw i with E_head := none }
  | "E_nozzle" => { toRaw i with E_nozzle := none }
  | "S_shell" => { toRaw i with S_shell := none }
  | "S_head" => { toRaw i with S_head := none }
  | "S_nozzle" => { toRaw i with S_nozzle := none }
  | "equipment_type" => { toRaw i with equipment_type := none }
  | "head_type" => { toRaw i with head_type := none }
  | "service_type" => { toRaw i with service_type := none }
  | "Fx" => { toRaw i with Fx := none }
  | "Fy" => { toRaw i with Fy := none }
  | "Fz" => { toRaw i with Fz := none }
  | "Mx" => { toRaw i with Mx := none }
  | "My" => { toRaw i with My := none }
  | "Mz" => { toRaw i with Mz := none }
  | "custom_min_enabled" => { toRaw i with custom_min_enabled := none }
  | "custom_min" => { toRaw i with custom_min := none }
  | _ => toRaw i

/-- The end-to-end example input of the spec (§8): a standard pressure vessel
in water service with an ellipsoidal head and no external loads. -/
def sampleInputs : Inputs :=
  { P_int := 2, D := 1000, d := 200, t := 12, tn := 10, th_head := 12,
    CA := 1.5, nozzle_od := 114.3, E_shell := 1, E_head := 1, E_nozzle := 1,
    S_shell := 138, S_head := 138, S_nozzle := 118,
    equipment_type := "Pressure Vessel (Standard)", head_type := "Ellipsoidal",
    service_type := "Water", Fx := 0, Fy := 0, Fz := 0, Mx := 0, My := 0,
    Mz := 0, custom_min_enabled := false, custom_min := 2.5 }

/-- Input exercising a negative shell-formula denominator:
`2·S_shell·E_shell − 1.2·P = 2·10·1 − 120 = −100 < 0`. -/
def negShellDenomInputs : Inputs :=
  { sampleInputs with P_int := 100, S_shell := 10 }

/-- Input with negative corroded shell thickness: `t − CA = 1 − 1.5 < 0`. -/
def negCorrodedInputs : Inputs :=
  { sampleInputs with t := 1 }

/-- Input with zero corroded shell thickness: `t − CA = 0`, so the shell
stress statement divides by zero. -/
def zeroCorrodedInputs : Inputs :=
  { sampleInputs with t := 1.5 }

/-- The load analyzer's common divisor `π · dn · tn`. -/
noncomputable def loadDenom (i : Inputs) : ℝ :=
  Real.pi * (i.d : ℝ) * ((i.tn : ℝ) - (i.CA : ℝ))

/-- The load analyzer's bending divisor `π · dn² · tn`. -/
noncomputable def loadDenomB (i : Inputs) : ℝ :=
  Real.pi * (i.d : ℝ) ^ 2 * ((i.tn : ℝ) - (i.CA : ℝ))

/-- The load analyzer's axial stress `Fz / (π · dn · tn)`. -/
noncomputable def axialOf (i : Inputs) : ℝ := (i.Fz : ℝ) / loadDenom i

/-- The load analyzer's bending stress `4·sqrt(Mx² + My²) / (π · dn² · tn)`. -/
noncomputable def bendingOf (i : Inputs) : ℝ :=
  4 * Real.sqrt ((i.Mx : ℝ) ^ 2 + (i.My : ℝ) ^ 2) / loadDenomB i

/-- The load analyzer's shear stress `sqrt(Fx² + Fy²) / (π · dn · tn)`. -/
noncomputable def shearOf (i : Inputs) : ℝ :=
  Real.sqrt ((i.Fx : ℝ) ^ 2 + (i.Fy : ℝ) ^ 2) / loadDenom i

/-- The load analyzer's equivalent (von-Mises-style) stress. -/
noncomputable def equivalentOf (i : Inputs) : ℝ :=
  Real.sqrt ((axialOf i + bendingOf i) ^ 2 + 3 * shearOf i ^ 2)

/-- The load analyzer's allowable limit `S_nozzle · 1.5`. -/
noncomputable def allowableOf (i : Inputs) : ℝ :=
  (i.S_nozzle : ℝ) * ((ALLOWABLE_STRESS_FACTOR : ℚ) : ℝ)

/-!  Theorems.  Supporting lemmas first, then one theorem (plus witness or
counterexample) per claim.  -/

theorem toInputs_toRaw (i : Inputs) : toInputs (toRaw i) = some i := rfl

theorem calculate_asme_compliance_complete (i : Inputs) :
    calculate_asme_compliance (toRaw i) = asmeComplianceCore i := rfl

theorem calculate_shell_thickness_ok (P D S E : ℚ) (h : 2 * S * E - 1.2 * P ≠ 0) :
    calculate_shell_thickness P D S E = .ok ((P * D) / (2 * S * E - 1.2 * P)) := by
  simp [calculate_shell_thickness, h]

theorem calculate_nozzle_thickness_ok (P d S E : ℚ) (h : 2 * S * E - 1.2 * P ≠ 0) :
    calculate_nozzle_thickness P d S E = .ok ((P * d) / (2 * S * E - 1.2 * P)) := by
  simp [calculate_nozzle_thickness, h]

theorem calculate_head_thickness_hemi (P D S E : ℚ) (h : 4 * S * E - 0.4 * P ≠ 0) :
    calculate_head_thickness P D S E "Hemispherical" =
      .ok ((P * D) / (4 * S * E - 0.4 * P)) := by
  simp [calculate_head_thickness, h]

theorem calculate_head_thickness_ell (P D S E : ℚ) (h : 2 * S * E - 0.2 * P ≠ 0) :
    calculate_head_thickness P D S E "Ellipsoidal" =
      .ok ((P * D) / (2 * S * E - 0.2 * P)) := by
  simp [calculate_head_thickness, h]

theorem calculate_head_thickness_tori (P D S E : ℚ) (h : S * E - 0.1 * P ≠ 0) :
    calculate_head_thickness P D S E "Torispherical" =
      .ok ((0.885 * P * D) / (S * E - 0.1 * P)) := by
  simp [calculate_head_thickness, h]

theorem calculate_head_thickness_invalid (P D S E : ℚ) (head_type : String)
    (h1 : head_type ≠ "Hemispherical") (h2 : head_type ≠ "Ellipsoidal")
    (h3 : head_type ≠ "Torispherical") :
    calculate_head_thickness P D S E head_type = .error (.valueError "Invalid head type") := by
  simp [calculate_head_thickness, h1, h2, h3]

/-- Claim C8: for every equipment category among the three, every service
category, override flag and override value, the minimum-thickness resolver
agrees with the spec's description `ug16_min_spec`: the resolved minimum is
the maximum of the equipment minimum (1.5 / 6.35 / 0.0), the service minimum
(2.5 for water, compressed air or steam, else 0.0) and the override value
(only when the flag is set); the justification joins, in the fixed order and
with separator " + ", exactly the clauses whose contributing value is
strictly positive, with the fixed "no requirement" sentinel when none
contributed. -/
theorem c8_ug16_resolver (et st : String) (en : Bool) (cm : ℚ)
    (het : et ∈ (["Pressure Vessel (Standard)", "Unfired Steam Boiler",
      "Non-Code Construction"] : List String)) :
    get_ug16_min_thickness et st en cm = ug16_min_spec et st en cm := by
  fin_cases het <;> cases en <;>
    simp [get_ug16_min_thickness, ug16_min_spec, UG16_MINIMUMS, max_assoc, max_comm,
      max_left_comm]

/-- Witness for C8 at the spec's own example: unfired steam boiler in water
service, override disabled. -/
theorem c8_witness :
    ("Unfired Steam Boiler" ∈ (["Pressure Vessel (Standard)", "Unfired Steam Boiler",
      "Non-Code Construction"] : List String)) ∧
    get_ug16_min_thickness "Unfired Steam Boiler" "Water" false 0 =
      ug16_min_spec "Unfired Steam Boiler" "Water" false 0 ∧
    (get_ug16_min_thickness "Unfired Steam Boiler" "Water" false 0).1 = 6.35 ∧
    (get_ug16_min_thickness "Unfired Steam Boiler" "Water" false 0).2 =
      "UG-16 for Unfired Steam Boiler + UG-16(b) for Water" :=
  ⟨by decide, c8_ug16_resolver "Unfired Steam Boiler" "Water" false 0 (by decide),
   by norm_num [get_ug16_min_thickness, UG16_MINIMUMS],
   by
    norm_num [get_ug16_min_thickness, UG16_MINIMUMS]
    decide⟩

/-- Claim C9: the head-thickness function returns `P·D / (4·S·E − 0.4·P)` for
"Hemispherical", `P·D / (2·S·E − 0.2·P)` for "Ellipsoidal",
`0.885·P·D / (S·E − 0.1·P)` for "Torispherical" (each whenever its
denominator is non-zero — at a zero denominator Python raises
`ZeroDivisionError` instead), and fails with the `ValueError("Invalid head
type")` for every other head-type value, regardless of `P`, `D`, `S`, `E`. -/
theorem c9_head_thickness (P D S E : ℚ) (head_type : String) :
    (4 * S * E - 0.4 * P ≠ 0 →
      calculate_head_thickness P D S E "Hemispherical" =
        .ok ((P * D) / (4 * S * E - 0.4 * P))) ∧
    (2 * S * E - 0.2 * P ≠ 0 →
      calculate_head_thickness P D S E "Ellipsoidal" =
        .ok ((P * D) / (2 * S * E - 0.2 * P))) ∧
    (S * E - 0.1 * P ≠ 0 →
      calculate_head_thickness P D S E "Torispherical" =
        .ok ((0.885 * P * D) / (S * E - 0.1 * P))) ∧
    (head_type ≠ "Hemispherical" → head_type ≠ "Ellipsoidal" →
      head_type ≠ "Torispherical" →
      calculate_head_thickness P D S E head_type =
        .error (.valueError "Invalid head type")) :=
  ⟨calculate_head_thickness_hemi P D S E,
   calculate_head_thickness_ell P D S E,
   calculate_head_thickness_tori P D S E,
   calculate_head_thickness_invalid P D S E head_type⟩

/-- Witness for C9 at the spec's §8 figures (`P = 2`, `D = 1000`, `S = 138`,
`E = 1`) and at the unrecognized head type "Flat". -/
theorem c9_witness :
    calculate_head_thickness 2 1000 138 1 "Ellipsoidal" =
      .ok ((2 * 1000) / (2 * 138 * 1 - 0.2 * 2)) ∧
    calculate_head_thickness 2 1000 138 1 "Flat" =
      .error (.valueError "Invalid head type") :=
  ⟨(c9_head_thickness 2 1000 138 1 "Flat").2.1 (by norm_num),
   (c9_head_thickness 2 1000 138 1 "Flat").2.2.2 (by decide) (by decide) (by decide)⟩

/-- Counterexample to C2 as stated: the orchestrator's required-key list has
25 entries, not 24. -/
theorem c2_counterexample : required_keys.length = 25 ∧ ¬required_keys.length = 24 := by
  constructor <;> decide

/-- Claim C2 (amended from 24 to 25 required fields): removing any one of the
25 required keys from an otherwise complete input terminates the evaluation
with the single error message naming exactly that key, and every report
section is left unpopulated. -/
theorem c2_missing_field (i : Inputs) (k : String) (hk : k ∈ required_keys) :
    calculate_asme_compliance (eraseKey k i) =
      { emptyReport with errors := ["Calculation error: Missing inputs: " ++ k] } := by
  fin_cases hk <;> rfl

/-- Witness for C2: removing `Fz` from the spec's §8 example input. -/
theorem c2_witness :
    calculate_asme_compliance (eraseKey "Fz" sampleInputs) =
      { emptyReport with errors := ["Calculation error: Missing inputs: Fz"] } :=
  c2_missing_field sampleInputs "Fz" (by decide)

theorem UG45_TABLE_sorted : UG45_TABLE.Pairwise (fun a b => a.od ≤ b.od) := by
  haveI : IsTrans Ug45Entry (fun a b => a.od ≤ b.od) := ⟨fun _ _ _ => le_trans⟩
  rw [← List.chain'_iff_pairwise]
  norm_num [UG45_TABLE, List.chain'_cons]

/-- On a list sorted ascending by outer diameter, `find?` with predicate
`target ≤ od` returns a member that satisfies the predicate and has the least
outer diameter among all members satisfying it. -/
theorem find_first_ge (x : ℚ) (l : List Ug45Entry)
    (hp : l.Pairwise (fun a b => a.od ≤ b.od)) (hex : ∃ e ∈ l, x ≤ e.od) :
    ∃ e, l.find? (fun a => decide (x ≤ a.od)) = some e ∧ e ∈ l ∧ x ≤ e.od ∧
      ∀ f ∈ l, x ≤ f.od → e.od ≤ f.od := by
  induction l with
  | nil => simp at hex
  | cons h t ih =>
    by_cases hx : x ≤ h.od
    · refine ⟨h, ?_, List.mem_cons_self h t, hx, ?_⟩
      · rw [List.find?_cons_of_pos _ (by simpa using hx)]
      · intro f hf hxf
        rcases List.mem_cons.mp hf with rfl | hf'
        · exact le_refl _
        · exact (List.pairwise_cons.mp hp).1 f hf'
    · have hex' : ∃ e ∈ t, x ≤ e.od := by
        rcases hex with ⟨e, he, hxe⟩
        rcases List.mem_cons.mp he with rfl | he'
        · exact absurd hxe hx
        · exact ⟨e, he', hxe⟩
      obtain ⟨e, hfind, hmem, hxe, hmin⟩ := ih (List.pairwise_cons.mp hp).2 hex'
      refine ⟨e, ?_, List.mem_cons_of_mem _ hmem, hxe, ?_⟩
      · rw [List.find?_cons_of_neg _ (by simpa using hx), hfind]
      · intro f hf hxf
        rcases List.mem_cons.mp hf with rfl | hf'
        · exact absurd hxf hx
        · exact hmin f hf' hxf

/-- Claim C6 (code bug evidenced): with a target outer diameter of 400 mm
(larger than every table entry) and corrosion allowance 1.5 mm, the matcher
does fall back to the largest entry's wall thickness plus corrosion allowance
(8.34 + 1.5) and does not raise, but it labels the match "NPS 12" — the last
entry's own label, because `'nps' in locals()` is always true — instead of
the fallback label "NPS 12+". -/
theorem c6_fallback :
    ug45Lookup 400 1.5 = (8.34 + 1.5, "NPS 12") ∧ ("NPS 12" : String) ≠ "NPS 12+" := by
  constructor
  · have hnone : UG45_TABLE.find? (fun a => decide ((400 : ℚ) ≤ a.od)) = none := by
      rw [List.find?_eq_none]
      intro a ha
      simp only [UG45_TABLE, List.mem_cons, List.not_mem_nil, or_false] at ha
      rcases ha with rfl | rfl | rfl | rfl | rfl | rfl | rfl | rfl | rfl | rfl | rfl | rfl |
        rfl | rfl | rfl | rfl | rfl | rfl <;> norm_num
    simp only [ug45Lookup, hnone]
    rfl
  · decide

/-- Claim C7: for a target outer diameter within the table's range, the
matcher selects the first entry (equivalently, since the table is sorted
ascending: an entry of minimal outer diameter) whose outer diameter is at
least the target; the table-required thickness is that entry's standard wall
thickness plus corrosion allowance; the reinforcement-required thickness is
the maximum of the formula nozzle-required thickness and the table-required
thickness, and the check passes iff the nominal (not corroded) nozzle
thickness is at least that maximum. -/
theorem c7_ug45_matcher (i : Inputs) (nozzle_required : ℚ)
    (h : i.nozzle_od ≤ 323.85) :
    ∃ e, UG45_TABLE.find? (fun a => decide (i.nozzle_od ≤ a.od)) = some e ∧
      e ∈ UG45_TABLE ∧ i.nozzle_od ≤ e.od ∧
      (∀ f ∈ UG45_TABLE, i.nozzle_od ≤ f.od → e.od ≤ f.od) ∧
      ug45Lookup i.nozzle_od i.CA = (e.wall + i.CA, "NPS " ++ e.nps) ∧
      ug45_block i nozzle_required =
        { required := max nozzle_required (e.wall + i.CA), actual := i.tn,
          status := decide (i.tn ≥ max nozzle_required (e.wall + i.CA)),
          matched_size := "NPS " ++ e.nps } ∧
      ((ug45_block i nozzle_required).status = true ↔
        i.tn ≥ max nozzle_required (e.wall + i.CA)) := by
  have hmem : ∃ e ∈ UG45_TABLE, i.nozzle_od ≤ e.od := by
    refine ⟨⟨"12", 300, 323.85, 8.34⟩, ?_, h⟩
    simp [UG45_TABLE]
  obtain ⟨e, hfind, hm, hxe, hmin⟩ := find_first_ge i.nozzle_od UG45_TABLE UG45_TABLE_sorted hmem
  have hlook : ug45Lookup i.nozzle_od i.CA = (e.wall + i.CA, "NPS " ++ e.nps) := by
    simp only [ug45Lookup, hfind]
  refine ⟨e, hfind, hm, hxe, hmin, hlook, ?_, ?_⟩
  · simp only [ug45_block, hlook]
  · simp only [ug45_block, hlook, decide_eq_true_eq]

/-- Witness for C7 at the spec's §8 input: target 114.3 mm matches the NPS 4
entry (outer diameter 114.30), giving table-required `5.27 + 1.5 = 6.77`,
and the reinforcement check passes with nominal `tn = 10`. -/
theorem c7_witness :
    (ug45_block sampleInputs (125/73)).required = max (125/73) 6.77 ∧
    (ug45_block sampleInputs (125/73)).matched_size = "NPS 4" ∧
    (ug45_block sampleInputs (125/73)).status = true := by
  obtain ⟨e, hfind, hm, hxe, hmin, hlook, hblock, hstat⟩ :=
    c7_ug45_matcher sampleInputs (125/73) (by norm_num [sampleInputs])
  have hfind' : UG45_TABLE.find? (fun a => decide (sampleInputs.nozzle_od ≤ a.od)) =
      some ⟨"4", 100, 114.30, 5.27⟩ := by
    simp only [UG45_TABLE, List.find?, sampleInputs]
    norm_num
  rw [hfind'] at hfind
  have he : e = ⟨"4", 100, 114.30, 5.27⟩ := (Option.some.inj hfind).symm
  subst he
  rw [hblock]
  refine ⟨by norm_num [sampleInputs], rfl, ?_⟩
  simp only [decide_eq_true_eq, ge_iff_le, sampleInputs]
  rw [max_le_iff]
  constructor <;> norm_num

theorem perform_stress_analysis_ok (i : Inputs)
    (h1 : (i.t - i.CA) * i.E_shell ≠ 0)
    (h2 : 4 * (i.th_head - i.CA) * i.E_head ≠ 0)
    (h3 : (i.tn - i.CA) * i.E_nozzle ≠ 0) :
    perform_stress_analysis i = .ok
      { shell := i.P_int * (i.D / 2) / ((i.t - i.CA) * i.E_shell),
        head := i.P_int * i.D / (4 * (i.th_head - i.CA) * i.E_head),
        nozzle := i.P_int * (i.d / 2) / ((i.tn - i.CA) * i.E_nozzle) } := by
  simp [perform_stress_analysis, h1, h2, h3]

theorem perform_stress_analysis_zero_shell (i : Inputs)
    (h1 : (i.t - i.CA) * i.E_shell = 0) :
    perform_stress_analysis i = .error (.keyError "errors") := by
  simp [perform_stress_analysis, h1]

open scoped Classical in
theorem perform_load_analysis_ok (i : Inputs) (hd : (0 : ℚ) < i.d)
    (ht : (0 : ℚ) < i.tn - i.CA) :
    perform_load_analysis i = .ok
      { axial := axialOf i, bending := bendingOf i, shear := shearOf i,
        equivalent := equivalentOf i, allowable := allowableOf i,
        status := decide (equivalentOf i ≤ allowableOf i) } := by
  have hd' : (0 : ℝ) < (i.d : ℝ) := by exact_mod_cast hd
  have ht' : (0 : ℝ) < (i.tn : ℝ) - (i.CA : ℝ) := by exact_mod_cast ht
  have h1 : Real.pi * (i.d : ℝ) * ((i.tn : ℝ) - (i.CA : ℝ)) ≠ 0 :=
    ne_of_gt (mul_pos (mul_pos Real.pi_pos hd') ht')
  have h2 : Real.pi * (i.d : ℝ) ^ 2 * ((i.tn : ℝ) - (i.CA : ℝ)) ≠ 0 :=
    ne_of_gt (mul_pos (mul_pos Real.pi_pos (pow_pos hd' 2)) ht')
  simp [perform_load_analysis, h1, h2, axialOf, bendingOf, shearOf, equivalentOf,
    allowableOf, loadDenom, loadDenomB]

theorem asmeComplianceCore_ok (i : Inputs) (shell_req head_req nozzle_req : ℚ)
    (st : StressSection) (ld : LoadSection)
    (hs : calculate_shell_thickness i.P_int i.D i.S_shell i.E_shell = .ok shell_req)
    (hh : calculate_head_thickness i.P_int i.D i.S_head i.E_head i.head_type = .ok head_req)
    (hn : calculate_nozzle_thickness i.P_int i.d i.S_nozzle i.E_nozzle = .ok nozzle_req)
    (hst : perform_stress_analysis i = .ok st)
    (hld : perform_load_analysis i = .ok ld) :
    asmeComplianceCore i =
      { errors := [],
        calcShell := some ⟨shell_req, i.t - i.CA⟩,
        calcHead := some ⟨head_req, i.th_head - i.CA⟩,
        calcNozzle := some ⟨nozzle_req, i.tn - i.CA⟩,
        ug16 := some (ug16_block i),
        ug45 := some (ug45_block i nozzle_req),
        stresses := some st,
        loads := some ld,
        compliant := some
          ((ug16_block i).shell.status && (ug16_block i).head.status &&
           (ug16_block i).nozzle.status && (ug45_block i nozzle_req).status &&
           decide (st.shell ≤ i.S_shell) && decide (st.head ≤ i.S_head) &&
           decide (st.nozzle ≤ i.S_nozzle) && ld.status) } := by
  simp [asmeComplianceCore, hs, hh, hn, hst, hld, emptyReport]

theorem asmeComplianceCore_stress_error (i : Inputs)
    (shell_req head_req nozzle_req : ℚ) (e : PyErr)
    (hs : calculate_shell_thickness i.P_int i.D i.S_shell i.E_shell = .ok shell_req)
    (hh : calculate_head_thickness i.P_int i.D i.S_head i.E_head i.head_type = .ok head_req)
    (hn : calculate_nozzle_thickness i.P_int i.d i.S_nozzle i.E_nozzle = .ok nozzle_req)
    (hst : perform_stress_analysis i = .error e) :
    asmeComplianceCore i =
      { errors := ["Calculation error: " ++ pyStr e],
        calcShell := some ⟨shell_req, i.t - i.CA⟩,
        calcHead := some ⟨head_req, i.th_head - i.CA⟩,
        calcNozzle := some ⟨nozzle_req, i.tn - i.CA⟩,
        ug16 := some (ug16_block i),
        ug45 := some (ug45_block i nozzle_req),
        stresses := none, loads := none, compliant := none } := by
  simp [asmeComplianceCore, hs, hh, hn, hst, emptyReport]

/-- Claim C3 (code bug evidenced): on the complete input with `P = 100`,
`S_shell = 10`, `E_shell = 1` the shell formula's denominator is
`2·10·1 − 1.2·100 = −100 < 0`, the required thickness evaluates to the
negative number `−1000`, yet the report carries no error at all and still
reaches a verdict: the negative value is propagated silently into the
required-vs-actual comparison and the overall boolean, instead of being
surfaced as a calculation error. -/
theorem c3_negative_denominator_silent :
    (2 * negShellDenomInputs.S_shell * negShellDenomInputs.E_shell -
      1.2 * negShellDenomInputs.P_int < 0) ∧
    (asmeComplianceCore negShellDenomInputs).errors = [] ∧
    (asmeComplianceCore negShellDenomInputs).calcShell = some ⟨-1000, 10.5⟩ ∧
    ((-1000 : ℚ) < 0) ∧
    (asmeComplianceCore negShellDenomInputs).compliant.isSome = true := by
  have hs := calculate_shell_thickness_ok negShellDenomInputs.P_int negShellDenomInputs.D
    negShellDenomInputs.S_shell negShellDenomInputs.E_shell
    (by norm_num [negShellDenomInputs, sampleInputs])
  have hh := calculate_head_thickness_ell negShellDenomInputs.P_int negShellDenomInputs.D
    negShellDenomInputs.S_head negShellDenomInputs.E_head
    (by norm_num [negShellDenomInputs, sampleInputs])
  have hn := calculate_nozzle_thickness_ok negShellDenomInputs.P_int negShellDenomInputs.d
    negShellDenomInputs.S_nozzle negShellDenomInputs.E_nozzle
    (by norm_num [negShellDenomInputs, sampleInputs])
  have hst := perform_stress_analysis_ok negShellDenomInputs
    (by norm_num [negShellDenomInputs, sampleInputs])
    (by norm_num [negShellDenomInputs, sampleInputs])
    (by norm_num [negShellDenomInputs, sampleInputs])
  have hld := perform_load_analysis_ok negShellDenomInputs
    (by norm_num [negShellDenomInputs, sampleInputs])
    (by norm_num [negShellDenomInputs, sampleInputs])
  have hrep := asmeComplianceCore_ok negShellDenomInputs _ _ _ _ _ hs hh hn hst hld
  rw [hrep]
  refine ⟨by norm_num [negShellDenomInputs, sampleInputs], rfl, ?_, by norm_num, rfl⟩
  norm_num [negShellDenomInputs, sampleInputs]

/-- Claim C4 (code bug evidenced): on the complete input with `t = 1`,
`CA = 1.5` the corroded shell thickness is `−0.5 < 0`, yet the stress
analyzer silently computes the (negative) shell stress `−2000` — no
computation error is recorded anywhere in the report.  Python only raises
when a corroded thickness is exactly zero (division by zero); a negative one
passes straight through. -/
theorem c4_negative_corroded_silent :
    negCorrodedInputs.t - negCorrodedInputs.CA < 0 ∧
    (asmeComplianceCore negCorrodedInputs).errors = [] ∧
    (asmeComplianceCore negCorrodedInputs).stresses =
      some { shell := -2000, head := 1000/21, nozzle := 400/17 } := by
  have hs := calculate_shell_thickness_ok negCorrodedInputs.P_int negCorrodedInputs.D
    negCorrodedInputs.S_shell negCorrodedInputs.E_shell
    (by norm_num [negCorrodedInputs, sampleInputs])
  have hh := calculate_head_thickness_ell negCorrodedInputs.P_int negCorrodedInputs.D
    negCorrodedInputs.S_head negCorrodedInputs.E_head
    (by norm_num [negCorrodedInputs, sampleInputs])
  have hn := calculate_nozzle_thickness_ok negCorrodedInputs.P_int negCorrodedInputs.d
    negCorrodedInputs.S_nozzle negCorrodedInputs.E_nozzle
    (by norm_num [negCorrodedInputs, sampleInputs])
  have hst := perform_stress_analysis_ok negCorrodedInputs
    (by norm_num [negCorrodedInputs, sampleInputs])
    (by norm_num [negCorrodedInputs, sampleInputs])
    (by norm_num [negCorrodedInputs, sampleInputs])
  have hld := perform_load_analysis_ok negCorrodedInputs
    (by norm_num [negCorrodedInputs, sampleInputs])
    (by norm_num [negCorrodedInputs, sampleInputs])
  have hrep := asmeComplianceCore_ok negCorrodedInputs _ _ _ _ _ hs hh hn hst hld
  rw [hrep]
  refine ⟨by norm_num [negCorrodedInputs, sampleInputs], rfl, ?_⟩
  norm_num [negCorrodedInputs, sampleInputs]

/-- Claim C5 (code bug evidenced): on the complete input with `t = CA = 1.5`
the shell-stress statement divides by zero; the stress analyzer's own
`except` handler then evaluates `results['errors']` on a local dict without
that key and raises `KeyError('errors')`, so the whole `try` block of the
orchestrator aborts: the load analyzer never runs (`loads` stays empty), the
stress section stays empty, `compliant` is never assigned, and the single
recorded message is the outer handler's "Calculation error: 'errors'" —
instead of the error being caught at the stress step with the load analyzer
still running. -/
theorem c5_stress_failure_skips_load :
    (asmeComplianceCore zeroCorrodedInputs).errors = ["Calculation error: 'errors'"] ∧
    (asmeComplianceCore zeroCorrodedInputs).stresses = none ∧
    (asmeComplianceCore zeroCorrodedInputs).loads = none ∧
    (asmeComplianceCore zeroCorrodedInputs).ug45.isSome = true ∧
    (asmeComplianceCore zeroCorrodedInputs).compliant = none := by
  have hs := calculate_shell_thickness_ok zeroCorrodedInputs.P_int zeroCorrodedInputs.D
    zeroCorrodedInputs.S_shell zeroCorrodedInputs.E_shell
    (by norm_num [zeroCorrodedInputs, sampleInputs])
  have hh := calculate_head_thickness_ell zeroCorrodedInputs.P_int zeroCorrodedInputs.D
    zeroCorrodedInputs.S_head zeroCorrodedInputs.E_head
    (by norm_num [zeroCorrodedInputs, sampleInputs])
  have hn := calculate_nozzle_thickness_ok zeroCorrodedInputs.P_int zeroCorrodedInputs.d
    zeroCorrodedInputs.S_nozzle zeroCorrodedInputs.E_nozzle
    (by norm_num [zeroCorrodedInputs, sampleInputs])
  have hst := perform_stress_analysis_zero_shell zeroCorrodedInputs
    (by norm_num [zeroCorrodedInputs, sampleInputs])
  have hrep := asmeComplianceCore_stress_error zeroCorrodedInputs _ _ _ _ hs hh hn hst
  rw [hrep]
  exact ⟨rfl, rfl, rfl, rfl, rfl⟩

open scoped Classical in
/-- Claim C10: for a complete input with positive nozzle diameter and positive
corroded nozzle thickness, the load analyzer returns exactly the section
`axial = Fz/(π·d·(tn−CA))`, `bending = 4·sqrt(Mx²+My²)/(π·d²·(tn−CA))`,
`shear = sqrt(Fx²+Fy²)/(π·d·(tn−CA))`,
`equivalent = sqrt((axial+bending)² + 3·shear²)`, allowable
`= S_nozzle · 1.5`, pass flag true iff `equivalent ≤ allowable`; the
torsional moment `Mz` takes no part (changing it leaves the result
unchanged); and with all loads zero the equivalent stress is `0` and the
pass flag is true whenever the nozzle allowable stress is non-negative. -/
theorem c10_load_analyzer (i : Inputs) (hd : (0 : ℚ) < i.d)
    (ht : (0 : ℚ) < i.tn - i.CA) :
    perform_load_analysis i = .ok
      { axial := axialOf i, bending := bendingOf i, shear := shearOf i,
        equivalent := equivalentOf i, allowable := allowableOf i,
        status := decide (equivalentOf i ≤ allowableOf i) } ∧
    axialOf i = (i.Fz : ℝ) / (Real.pi * (i.d : ℝ) * ((i.tn : ℝ) - (i.CA : ℝ))) ∧
    bendingOf i = 4 * Real.sqrt ((i.Mx : ℝ) ^ 2 + (i.My : ℝ) ^ 2) /
      (Real.pi * (i.d : ℝ) ^ 2 * ((i.tn : ℝ) - (i.CA : ℝ))) ∧
    shearOf i = Real.sqrt ((i.Fx : ℝ) ^ 2 + (i.Fy : ℝ) ^ 2) /
      (Real.pi * (i.d : ℝ) * ((i.tn : ℝ) - (i.CA : ℝ))) ∧
    equivalentOf i = Real.sqrt ((axialOf i + bendingOf i) ^ 2 + 3 * shearOf i ^ 2) ∧
    allowableOf i = (i.S_nozzle : ℝ) * 1.5 ∧
    (decide (equivalentOf i ≤ allowableOf i) = true ↔ equivalentOf i ≤ allowableOf i) ∧
    (∀ m : ℚ, perform_load_analysis { i with Mz := m } = perform_load_analysis i) ∧
    (i.Fx = 0 → i.Fy = 0 → i.Fz = 0 → i.Mx = 0 → i.My = 0 → 0 ≤ i.S_nozzle →
      equivalentOf i = 0 ∧ decide (equivalentOf i ≤ allowableOf i) = true) := by
  refine ⟨perform_load_analysis_ok i hd ht, rfl, rfl, rfl, rfl, ?_,
    ⟨fun h => of_decide_eq_true h, fun h => decide_eq_true h⟩, fun m => rfl, ?_⟩
  · rw [allowableOf, ALLOWABLE_STRESS_FACTOR]
    norm_num
  · intro hFx hFy hFz hMx hMy hS
    have heq : equivalentOf i = 0 := by
      norm_num [equivalentOf, axialOf, bendingOf, shearOf, hFx, hFy, hFz, hMx, hMy,
        Real.sqrt_zero]
    refine ⟨heq, ?_⟩
    rw [heq, decide_eq_true_eq, allowableOf]
    have hS' : (0 : ℝ) ≤ (i.S_nozzle : ℝ) := by exact_mod_cast hS
    have : (0 : ℝ) ≤ ((ALLOWABLE_STRESS_FACTOR : ℚ) : ℝ) := by
      rw [ALLOWABLE_STRESS_FACTOR]; norm_num
    exact mul_nonneg hS' this

/-- Witness for C10 at the spec's §8 input (`d = 200`, `tn − CA = 8.5`, all
loads zero, `S_nozzle = 118`): equivalent stress `0`, pass flag true. -/
theorem c10_witness :
    (0 : ℚ) < sampleInputs.d ∧ (0 : ℚ) < sampleInputs.tn - sampleInputs.CA ∧
    equivalentOf sampleInputs = 0 ∧
    decide (equivalentOf sampleInputs ≤ allowableOf sampleInputs) = true := by
  have h := c10_load_analyzer sampleInputs (by norm_num [sampleInputs])
    (by norm_num [sampleInputs])
  have hz := h.2.2.2.2.2.2.2.2 rfl rfl rfl rfl rfl (by norm_num [sampleInputs])
  exact ⟨by norm_num [sampleInputs], by norm_num [sampleInputs], hz.1, hz.2⟩

/-- Counterexample to C1's "absent load status implies overall false": on the
complete input whose corroded shell thickness is zero, the stress analysis
fails, the load section is never produced — and the overall boolean is not
`false` but absent (the `'compliant'` key is never assigned). -/
theorem c1_counterexample :
    (asmeComplianceCore zeroCorrodedInputs).loads = none ∧
    (asmeComplianceCore zeroCorrodedInputs).compliant = none ∧
    ¬(asmeComplianceCore zeroCorrodedInputs).compliant = some false := by
  have hs := calculate_shell_thickness_ok zeroCorrodedInputs.P_int zeroCorrodedInputs.D
    zeroCorrodedInputs.S_shell zeroCorrodedInputs.E_shell
    (by norm_num [zeroCorrodedInputs, sampleInputs])
  have hh := calculate_head_thickness_ell zeroCorrodedInputs.P_int zeroCorrodedInputs.D
    zeroCorrodedInputs.S_head zeroCorrodedInputs.E_head
    (by norm_num [zeroCorrodedInputs, sampleInputs])
  have hn := calculate_nozzle_thickness_ok zeroCorrodedInputs.P_int zeroCorrodedInputs.d
    zeroCorrodedInputs.S_nozzle zeroCorrodedInputs.E_nozzle
    (by norm_num [zeroCorrodedInputs, sampleInputs])
  have hst := perform_stress_analysis_zero_shell zeroCorrodedInputs
    (by norm_num [zeroCorrodedInputs, sampleInputs])
  have hrep := asmeComplianceCore_stress_error zeroCorrodedInputs _ _ _ _ hs hh hn hst
  rw [hrep]
  exact ⟨rfl, rfl, by simp⟩

/-- Claim C1 (amended): whenever all intermediate sections are produced, the
overall compliance boolean equals the conjunction of the three UG-16 pass
flags, the UG-45 pass flag, the three stress-vs-allowable comparisons and
the load pass flag; and when the load section is absent due to an earlier
failure, the overall boolean is itself absent (never assigned) rather than
`false` — the evaluation then carries a non-empty error list. -/
theorem c1_compliance_aggregation (i : Inputs) :
    (∀ u16 u45 st ld c,
      (asmeComplianceCore i).ug16 = some u16 →
      (asmeComplianceCore i).ug45 = some u45 →
      (asmeComplianceCore i).stresses = some st →
      (asmeComplianceCore i).loads = some ld →
      (asmeComplianceCore i).compliant = some c →
      c = (u16.shell.status && u16.head.status && u16.nozzle.status &&
           u45.status && decide (st.shell ≤ i.S_shell) && decide (st.head ≤ i.S_head) &&
           decide (st.nozzle ≤ i.S_nozzle) && ld.status)) ∧
    ((asmeComplianceCore i).loads = none → (asmeComplianceCore i).compliant = none) := by
  cases hs : calculate_shell_thickness i.P_int i.D i.S_shell i.E_shell with
  | error e =>
    refine ⟨fun u16 u45 st ld c h1 h2 h3 h4 h5 => ?_, fun hl => ?_⟩
    · simp [asmeComplianceCore, hs, emptyReport] at h1
    · simp [asmeComplianceCore, hs, emptyReport]
  | ok shell_req =>
    cases hh : calculate_head_thickness i.P_int i.D i.S_head i.E_head i.head_type with
    | error e =>
      refine ⟨fun u16 u45 st ld c h1 h2 h3 h4 h5 => ?_, fun hl => ?_⟩
      · simp [asmeComplianceCore, hs, hh, emptyReport] at h1
      · simp [asmeComplianceCore, hs, hh, emptyReport]
    | ok head_req =>
      cases hn : calculate_nozzle_thickness i.P_int i.d i.S_nozzle i.E_nozzle with
      | error e =>
        refine ⟨fun u16 u45 st ld c h1 h2 h3 h4 h5 => ?_, fun hl => ?_⟩
        · simp [asmeComplianceCore, hs, hh, hn, emptyReport] at h1
        · simp [asmeComplianceCore, hs, hh, hn, emptyReport]
      | ok nozzle_req =>
        cases hst : perform_stress_analysis i with
        | error e =>
          refine ⟨fun u16 u45 st ld c h1 h2 h3 h4 h5 => ?_, fun hl => ?_⟩
          · simp [asmeComplianceCore, hs, hh, hn, hst, emptyReport] at h3
          · simp [asmeComplianceCore, hs, hh, hn, hst, emptyReport]
        | ok st0 =>
          cases hld : perform_load_analysis i with
          | error e =>
            refine ⟨fun u16 u45 st ld c h1 h2 h3 h4 h5 => ?_, fun hl => ?_⟩
            · simp [asmeComplianceCore, hs, hh, hn, hst, hld, emptyReport] at h4
            · simp [asmeComplianceCore, hs, hh, hn, hst, hld, emptyReport]
          | ok ld0 =>
            refine ⟨fun u16 u45 st ld c h1 h2 h3 h4 h5 => ?_, fun hl => ?_⟩
            · simp only [asmeComplianceCore, hs, hh, hn, hst, hld,
                Option.some.injEq] at h1 h2 h3 h4 h5
              subst h1
              subst h2
              subst h3
              subst h4
              subst h5
              rfl
            · simp [asmeComplianceCore, hs, hh, hn, hst, hld, emptyReport] at hl

/-- Witness for C1 at the spec's §8 end-to-end input: every section is
produced and the aggregated overall boolean is `true` (`Compliant`). -/
theorem c1_witness : (asmeComplianceCore sampleInputs).compliant = some true := by
  have hs := calculate_shell_thickness_ok sampleInputs.P_int sampleInputs.D
    sampleInputs.S_shell sampleInputs.E_shell (by norm_num [sampleInputs])
  have hh := calculate_head_thickness_ell sampleInputs.P_int sampleInputs.D
    sampleInputs.S_head sampleInputs.E_head (by norm_num [sampleInputs])
  have hn := calculate_nozzle_thickness_ok sampleInputs.P_int sampleInputs.d
    sampleInputs.S_nozzle sampleInputs.E_nozzle (by norm_num [sampleInputs])
  have hst := perform_stress_analysis_ok sampleInputs (by norm_num [sampleInputs])
    (by norm_num [sampleInputs]) (by norm_num [sampleInputs])
  have hld := perform_load_analysis_ok sampleInputs (by norm_num [sampleInputs])
    (by norm_num [sampleInputs])
  have hrep := asmeComplianceCore_ok sampleInputs _ _ _ _ _ hs hh hn hst hld
  have hagg := (c1_compliance_aggregation sampleInputs).1 _ _ _ _ _
    (by rw [hrep]) (by rw [hrep]) (by rw [hrep]) (by rw [hrep]) (by rw [hrep])
  rw [hrep]
  norm_num [ug16_block, get_ug16_min_thickness, UG16_MINIMUMS, ug45_block, ug45Lookup,
    UG45_TABLE, List.find?, sampleInputs, ALLOWABLE_STRESS_FACTOR, equivalentOf,
    axialOf, bendingOf, shearOf, loadDenom, loadDenomB, allowableOf, Real.sqrt_zero,
    max_le_iff, decide_eq_true_eq]
